import Mathlib

/-!
Shallow embedding of `backend/core/api.py` from the open-hypertrophy
repository: a small CRUD backend (users, categories, exercises, lifts)
built on a relational store and cookie sessions.

The relational store is modelled as explicit lists of rows, the session
as an inductive state (Django's session carries the authenticated user's
id together with an auth-hash derived from the stored password hash; the
auth middleware only yields a user when that hash still matches).
Password hashing and the session-auth HMAC are external collaborators and
are modelled as fixed injective tagging functions.  `transaction.atomic`
is modelled by building the new user row functionally and committing it
to the store only when every step succeeded; a failing step yields the
unchanged store (the rollback).  The password-strength validator is
configuration outside this file's source, so handlers that call it take
the validator (a function returning the list of error messages, empty
meaning the password passed) as a parameter.
-/

namespace OpenHypertrophy

/-- A `User` row: unique username, hashed password, names, the staff
flag, and the set of granted permission codenames. -/
structure User where
  id : Nat
  username : String
  passwordHash : String
  firstName : String
  lastName : String
  isStaff : Bool
  permissions : List String
deriving DecidableEq

/-- An `Exercise` row: named movement type with creator and creation
timestamp. -/
structure Exercise where
  id : Nat
  name : String
  createdBy : Nat
  dateCreated : Nat
deriving DecidableEq

/-- A `Lift` row: owning user, referenced exercise, date, repetitions,
weight. -/
structure Lift where
  id : Nat
  user : Nat
  exercise : Nat
  date : Nat
  repetitions : Nat
  weight : Nat
deriving DecidableEq

/-- The relational store: rows of every entity, the set of permission
rows available in `Permission.objects`, and fresh-id counters. -/
structure Store where
  users : List User
  exercises : List Exercise
  lifts : List Lift
  availablePermissions : List String
  nextUserId : Nat
  nextLiftId : Nat
deriving DecidableEq

/-- Session state: Django's session either carries no user (anonymous)
or the authenticated user's id plus the session auth-hash derived from
the user's password hash at login time. -/
inductive Session where
  | anonymous
  | authenticated (userId : Nat) (authHash : String)
deriving DecidableEq

/-- Django's password hasher, modelled as an injective tagging
function. -/
def hashPassword (p : String) : String := "pbkdf2$" ++ p

/-- `user.check_password(p)`: the stored hash matches the hash of `p`. -/
def checkPassword (u : User) (p : String) : Bool :=
  u.passwordHash == hashPassword p

/-- The HMAC of the password hash that Django stores in the session
(`_auth_user_hash`), modelled as an injective tagging function. -/
def sessionAuthHash (passwordHash : String) : String :=
  "hmac$" ++ passwordHash

/-- `get_user_model().objects.get(id=uid)`-style lookup. -/
def findUserById (s : Store) (uid : Nat) : Option User :=
  s.users.find? (fun u => u.id == uid)

/-- The auth middleware's `request.user`: a real user only when the
session names an existing user and the session auth-hash still matches
that user's current password hash; otherwise anonymous (`none`). -/
def currentUser (s : Store) (sess : Session) : Option User :=
  match sess with
  | Session.anonymous => none
  | Session.authenticated uid h =>
    match findUserById s uid with
    | none => none
    | some u => if h == sessionAuthHash u.passwordHash then some u else none

/-- Response of `GET /lifts/`. -/
inductive LiftListResponse where
  | unauthorized
  | ok (lifts : List Lift)
deriving DecidableEq

/-- The ordering used by `order_by("date")`: ascending by date. -/
def liftDateLe (a b : Lift) : Prop := a.date ≤ b.date

instance : DecidableRel liftDateLe := fun a b => Nat.decLe a.date b.date

instance : IsTotal Lift liftDateLe := ⟨fun a b => Nat.le_total a.date b.date⟩

instance : IsTrans Lift liftDateLe :=
  ⟨fun _ _ _ hab hbc => Nat.le_trans hab hbc⟩

/-- `list_lifts`: requires an authenticated session; returns
`Lift.objects.filter(user=request.user).order_by("date")`. -/
def list_lifts (s : Store) (sess : Session) : LiftListResponse :=
  match currentUser s sess with
  | none => LiftListResponse.unauthorized
  | some u =>
    LiftListResponse.ok
      (List.insertionSort liftDateLe (s.lifts.filter (fun l => l.user == u.id)))

/-- Payload of `POST /lifts/` (`CreateLiftSchema`). -/
structure CreateLiftSchema where
  exercise_id : Nat
  date : Nat
  repetitions : Nat
  weight : Nat
deriving DecidableEq

/-- Response of `POST /lifts/`. -/
inductive CreateLiftResponse where
  | unauthorized
  | created (detail : String)
  | notFound (detail : String)
deriving DecidableEq

/-- `create_lift`: looks up the exercise; `Exercise.DoesNotExist` is
caught and mapped to 404; otherwise a `Lift` owned by `request.user` is
inserted and 201 returned. -/
def create_lift (s : Store) (sess : Session) (p : CreateLiftSchema) :
    CreateLiftResponse × Store :=
  match currentUser s sess with
  | none => (CreateLiftResponse.unauthorized, s)
  | some u =>
    match s.exercises.find? (fun e => e.id == p.exercise_id) with
    | none => (CreateLiftResponse.notFound "Exercise not found.", s)
    | some e =>
      let l : Lift :=
        { id := s.nextLiftId, user := u.id, exercise := e.id,
          date := p.date, repetitions := p.repetitions, weight := p.weight }
      (CreateLiftResponse.created "Lift created successfully.",
        { s with lifts := l :: s.lifts, nextLiftId := s.nextLiftId + 1 })

/-- Payload of `POST /users/` (`CreateUser`). -/
structure CreateUser where
  username : String
  password : String
  first_name : String
  last_name : String
deriving DecidableEq

/-- Response of `POST /users/`.  `serverError` models an exception (a
missing `Permission` row) escaping the handler uncaught. -/
inductive CreateUserResponse where
  | created (detail : String)
  | badRequest (detail : String)
  | serverError
deriving DecidableEq

/-- The six permission codenames granted at registration, in the order
the source grants them. -/
def requiredPermissions : List String :=
  ["add_category", "view_category", "add_exercise", "view_exercise",
   "add_lift", "view_lift"]

/-- `user_permissions.add`: a many-to-many add, a no-op when the
permission is already granted. -/
def addPermission (perms : List String) (c : String) : List String :=
  if perms.contains c then perms else perms ++ [c]

/-- One `u.user_permissions.add(Permission.objects.get(codename=c))`
step: `none` when the permission row does not exist
(`Permission.DoesNotExist`). -/
def grantPermission (avail : List String) (u : User) (c : String) :
    Option User :=
  if avail.contains c then
    some { u with permissions := addPermission u.permissions c }
  else none

/-- The sequence of permission grants inside the transaction; the first
failing grant aborts the whole sequence. -/
def grantAll (avail : List String) (u : User) : List String → Option User
  | [] => some u
  | c :: cs =>
    match grantPermission avail u c with
    | none => none
    | some u' => grantAll avail u' cs

/-- `create_user`: explicit username-existence check before any insert,
then inside `transaction.atomic()` the user row is created (staff, with
the hashed password) and the six permissions granted.  A failure inside
the transaction rolls the whole creation back: the store is returned
unchanged. -/
def create_user (s : Store) (p : CreateUser) : CreateUserResponse × Store :=
  if s.users.any (fun u => u.username == p.username) then
    (CreateUserResponse.badRequest "Username is already used.", s)
  else
    let u0 : User :=
      { id := s.nextUserId, username := p.username,
        passwordHash := hashPassword p.password,
        firstName := p.first_name, lastName := p.last_name,
        isStaff := true, permissions := [] }
    match grantAll s.availablePermissions u0 requiredPermissions with
    | none => (CreateUserResponse.serverError, s)
    | some u =>
      (CreateUserResponse.created "Success.",
        { s with users := u :: s.users, nextUserId := s.nextUserId + 1 })

/-- Response of `GET /users/current/`. -/
inductive CurrentUserResponse where
  | unauthorized
  | ok (u : User)
deriving DecidableEq

/-- `retrieve_current_user`: the authenticated user, 401 otherwise. -/
def retrieve_current_user (s : Store) (sess : Session) : CurrentUserResponse :=
  match currentUser s sess with
  | none => CurrentUserResponse.unauthorized
  | some u => CurrentUserResponse.ok u

/-- Payload of `POST /users/login/`. -/
structure Login where
  username : String
  password : String
deriving DecidableEq

/-- Response of `POST /users/login/`. -/
inductive LoginResponse where
  | ok (detail : String)
  | badRequest (detail : String)
deriving DecidableEq

/-- `django.contrib.auth.authenticate`: find the user by username and
verify the password against the stored hash. -/
def authenticate (s : Store) (username password : String) : Option User :=
  match s.users.find? (fun u => u.username == username) with
  | none => none
  | some u => if checkPassword u password then some u else none

/-- `django.contrib.auth.login`: bind the session to the user, storing
the auth-hash of the user's current password hash. -/
def django_login (u : User) : Session :=
  Session.authenticated u.id (sessionAuthHash u.passwordHash)

/-- `login` handler: 200 and a fresh session binding on success, 400
"Invalid credentials." with the session untouched on failure. -/
def login (s : Store) (sess : Session) (p : Login) : LoginResponse × Session :=
  match authenticate s p.username p.password with
  | some u => (LoginResponse.ok "Success.", django_login u)
  | none => (LoginResponse.badRequest "Invalid credentials.", sess)

/-- `logout` handler: `django_logout` flushes the session
unconditionally; always returns the success detail. -/
def logout (sess : Session) : String × Session :=
  match sess with
  | _ => ("Success.", Session.anonymous)

/-- Payload of `POST /users/change-password/`. -/
structure ChangePassword where
  current_password : String
  new_password : String
deriving DecidableEq

/-- Response of `POST /users/change-password/`; a `ValidationError`
raised by `validate_password` is mapped by the global handler to 400
with the space-joined messages. -/
inductive ChangePasswordResponse where
  | unauthorized
  | ok (detail : String)
  | badRequest (detail : String)
deriving DecidableEq

/-- Write an updated user row back to the store (`user.save()`). -/
def saveUser (s : Store) (u : User) : Store :=
  { s with users := s.users.map (fun v => if v.id == u.id then u else v) }

/-- `change_password`: reject a wrong current password with 400; run the
strength validator on the new password (a nonempty message list raises
`ValidationError`, mapped to 400 before `set_password` is reached);
otherwise store the new hash and `update_session_auth_hash` re-derives
the session's auth-hash so the session stays valid.  The validator is a
parameter: its rules live in settings outside this source file. -/
def change_password (validator : String → List String) (s : Store)
    (sess : Session) (p : ChangePassword) :
    ChangePasswordResponse × Store × Session :=
  match currentUser s sess with
  | none => (ChangePasswordResponse.unauthorized, s, sess)
  | some u =>
    if checkPassword u p.current_password then
      match validator p.new_password with
      | [] =>
        let u' := { u with passwordHash := hashPassword p.new_password }
        (ChangePasswordResponse.ok "Password changed successfully.",
          saveUser s u',
          Session.authenticated u'.id (sessionAuthHash u'.passwordHash))
      | errs =>
        (ChangePasswordResponse.badRequest (String.intercalate " " errs),
          s, sess)
    else
      (ChangePasswordResponse.badRequest "Current password is incorrect.",
        s, sess)

/-! Concrete fixtures used to evaluate the handlers on closed inputs. -/

/-- A registered user. -/
def alice : User :=
  { id := 1, username := "alice", passwordHash := hashPassword "alicepw",
    firstName := "Alice", lastName := "A", isStaff := true,
    permissions := requiredPermissions }

/-- A second registered user, distinct from `alice`. -/
def bob : User :=
  { id := 2, username := "bob", passwordHash := hashPassword "bobpw",
    firstName := "Bob", lastName := "B", isStaff := true,
    permissions := requiredPermissions }

/-- An exercise row. -/
def squat : Exercise :=
  { id := 10, name := "Squat", createdBy := 1, dateCreated := 1 }

/-- A lift of `alice` dated 5. -/
def la1 : Lift :=
  { id := 1, user := 1, exercise := 10, date := 5, repetitions := 5,
    weight := 100 }

/-- A lift of `alice` dated 3. -/
def la2 : Lift :=
  { id := 2, user := 1, exercise := 10, date := 3, repetitions := 5,
    weight := 100 }

/-- A lift of `bob` dated 4. -/
def lb : Lift :=
  { id := 3, user := 2, exercise := 10, date := 4, repetitions := 5,
    weight := 100 }

/-- A store with two users, one exercise, three lifts, and all six
permission rows present. -/
def baseStore : Store :=
  { users := [alice, bob], exercises := [squat], lifts := [la1, la2, lb],
    availablePermissions := requiredPermissions, nextUserId := 3,
    nextLiftId := 4 }

/-- A session in which `alice` is authenticated. -/
def aliceSession : Session :=
  Session.authenticated 1 (sessionAuthHash (hashPassword "alicepw"))

/-- An empty store whose permission table holds the six rows. -/
def freshStore : Store :=
  { users := [], exercises := [], lifts := [],
    availablePermissions := requiredPermissions, nextUserId := 1,
    nextLiftId := 1 }

/-- A registration payload for a fresh username. -/
def carolPayload : CreateUser :=
  { username := "carol", password := "carolpw", first_name := "Carol",
    last_name := "C" }

/-- A registration payload reusing the taken username `alice`. -/
def dupPayload : CreateUser :=
  { username := "alice", password := "x", first_name := "A",
    last_name := "A" }

/-- A lift payload whose exercise id matches no exercise row. -/
def missingExercisePayload : CreateLiftSchema :=
  { exercise_id := 999, date := 7, repetitions := 5, weight := 100 }

/-- A lift payload referencing the existing exercise `squat`. -/
def okLiftPayload : CreateLiftSchema :=
  { exercise_id := 10, date := 7, repetitions := 5, weight := 100 }

/-- A login payload with a wrong password for `alice`. -/
def badLogin : Login :=
  { username := "alice", password := "wrongpw" }

/-- A change-password payload with the correct current password. -/
def cpOk : ChangePassword :=
  { current_password := "alicepw", new_password := "newpw123" }

/-- A change-password payload whose new password will fail the strength
validator used in the witness. -/
def cpWeak : ChangePassword :=
  { current_password := "alicepw", new_password := "pw" }

/-- A strength validator that accepts everything (empty message list). -/
def acceptAll : String → List String := fun _ => []

/-- A strength validator that rejects everything with one message. -/
def rejectAll : String → List String :=
  fun _ => ["This password is too short."]

/-! Helper lemmas. -/

/-- A successful grant sequence produces exactly the user it was given
with the granted codenames folded onto its permission list. -/
theorem grantAll_eq (avail : List String) :
    ∀ (cs : List String) (u u' : User), grantAll avail u cs = some u' →
      u' = { u with permissions := List.foldl addPermission u.permissions cs }
  | [], u, u', h => by
      simp only [grantAll, Option.some.injEq] at h
      simp [← h, List.foldl]
  | c :: cs, u, u', h => by
      rw [grantAll] at h
      unfold grantPermission at h
      by_cases hc : c ∈ avail
      · simp only [List.contains, List.elem_eq_true_of_mem hc, if_true] at h
        have := grantAll_eq avail cs _ u' h
        simp [this, List.foldl]
      · simp [hc] at h

/-- A grant sequence containing a codename with no permission row
fails. -/
theorem grantAll_none (avail : List String) :
    ∀ (cs : List String) (u : User),
      cs.all (fun c => avail.contains c) = false →
      grantAll avail u cs = none
  | [], _, h => by simp at h
  | c :: cs, u, h => by
      rw [grantAll]
      unfold grantPermission
      by_cases hc : c ∈ avail
      · simp only [List.contains, List.elem_eq_true_of_mem hc, if_true]
        apply grantAll_none avail cs
        simpa [hc] using h
      · simp [hc]

/-- Destruct a successful `currentUser`: the session names the user's id
with the auth-hash of its current password hash, and the row lookup
succeeds. -/
theorem currentUser_elim (s : Store) (sess : Session) (u : User)
    (h : currentUser s sess = some u) :
    sess = Session.authenticated u.id (sessionAuthHash u.passwordHash) ∧
      findUserById s u.id = some u := by
  cases sess with
  | anonymous => simp [currentUser] at h
  | authenticated uid ah =>
      simp only [currentUser] at h
      cases hf : findUserById s uid with
      | none => rw [hf] at h; simp at h
      | some v =>
          rw [hf] at h
          by_cases hh : ah == sessionAuthHash v.passwordHash
          · simp only [hh, if_true, Option.some.injEq] at h
            have hid : v.id = uid := by
              have hp := List.find?_some hf
              simpa using hp
            have hah : ah = sessionAuthHash v.passwordHash := by
              simpa using hh
            subst h
            constructor
            · rw [hah, hid]
            · rw [hid]; exact hf
          · simp [hh] at h

/-- Updating the row of an existing user makes later lookups of that id
return the updated row. -/
theorem find?_save (uid : Nat) (u' : User) (h' : u'.id = uid) :
    ∀ (l : List User) (u : User),
      l.find? (fun v => v.id == uid) = some u →
      (l.map (fun v => if v.id == u'.id then u' else v)).find?
        (fun v => v.id == uid) = some u'
  | [], u, h => by simp at h
  | a :: l, u, h => by
      by_cases ha : a.id = uid
      · simp [List.find?, ha, h']
      · have hmap : (if a.id == u'.id then u' else a) = a := by
          simp [h', ha]
        rw [List.map_cons, hmap,
          List.find?_cons_of_neg _ (by simp [ha])]
        rw [List.find?_cons_of_neg _ (by simp [ha])] at h
        exact find?_save uid u' h' l u h

/-- Store-level form of `find?_save`. -/
theorem findUserById_saveUser (s : Store) (u u' : User) (h' : u'.id = u.id)
    (h : findUserById s u.id = some u) :
    findUserById (saveUser s u') u.id = some u' := by
  unfold findUserById saveUser at *
  exact find?_save u.id u' h' s.users u h

/-- C2: registration is atomic: whatever happens inside the
transaction, the store either is unchanged (duplicate username, or a
failed step rolled the user creation back) or gains exactly one new user
row holding all six permissions; no partial user is ever committed.
Additionally, whenever one of the six permission rows is missing, every
grant sequence aborts, so the rolled-back outcome is the only possible
one in that case. -/
theorem create_user_atomic (s : Store) (p : CreateUser) :
    ((create_user s p).2 = s ∨
      ∃ u, (create_user s p).2.users = u :: s.users ∧
        u.permissions = requiredPermissions ∧ u.isStaff = true) ∧
      (requiredPermissions.all
          (fun c => s.availablePermissions.contains c) = false →
        ∀ v : User, grantAll s.availablePermissions v requiredPermissions
          = none) := by
  constructor
  · by_cases hex : s.users.any (fun u => u.username == p.username) = true
    · left; simp [create_user, hex]
    · rcases hg : grantAll s.availablePermissions
          { id := s.nextUserId, username := p.username,
            passwordHash := hashPassword p.password,
            firstName := p.first_name, lastName := p.last_name,
            isStaff := true, permissions := [] }
          requiredPermissions with _ | u
      · left; simp [create_user, hex, hg]
      · right
        refine ⟨u, ?_, ?_, ?_⟩
        · simp [create_user, hex, hg]
        · have he := grantAll_eq s.availablePermissions requiredPermissions
            _ u hg
          have hfold : List.foldl addPermission ([] : List String)
              requiredPermissions = requiredPermissions := by decide
          rw [he]
          exact hfold
        · have he := grantAll_eq s.availablePermissions requiredPermissions
            _ u hg
          rw [he]
  · intro hmiss v
    exact grantAll_none s.availablePermissions requiredPermissions v hmiss

/-- C2 witness: at a store missing every permission row, every grant
sequence for the six codenames aborts (so the transaction there can
only roll back). -/
theorem create_user_atomic_witness :
    grantAll ([] : List String)
      { id := 1, username := "carol",
        passwordHash := hashPassword "carolpw", firstName := "Carol",
        lastName := "C", isStaff := true, permissions := [] }
      requiredPermissions = none :=
  (create_user_atomic
      { users := [], exercises := [], lifts := [],
        availablePermissions := [], nextUserId := 1, nextLiftId := 1 }
      carolPayload).2 (by decide)
    { id := 1, username := "carol",
      passwordHash := hashPassword "carolpw", firstName := "Carol",
      lastName := "C", isStaff := true, permissions := [] }

/-- C3: a registration that returns 201 created exactly one new user
row, marked staff and holding exactly the six permissions
add_category, view_category, add_exercise, view_exercise, add_lift,
view_lift, and no others. -/
theorem create_user_success_staff_six_perms (s : Store) (p : CreateUser)
    (d : String) (h : (create_user s p).1 = CreateUserResponse.created d) :
    ∃ u, (create_user s p).2.users = u :: s.users ∧ u.isStaff = true ∧
      u.permissions = requiredPermissions := by
  by_cases hex : s.users.any (fun u => u.username == p.username) = true
  · simp [create_user, hex] at h
  · rcases hg : grantAll s.availablePermissions
        { id := s.nextUserId, username := p.username,
          passwordHash := hashPassword p.password,
          firstName := p.first_name, lastName := p.last_name,
          isStaff := true, permissions := [] }
        requiredPermissions with _ | u
    · simp [create_user, hex, hg] at h
    · refine ⟨u, ?_, ?_, ?_⟩
      · simp [create_user, hex, hg]
      · have he := grantAll_eq s.availablePermissions requiredPermissions
          _ u hg
        rw [he]
      · have he := grantAll_eq s.availablePermissions requiredPermissions
          _ u hg
        have hfold : List.foldl addPermission ([] : List String)
            requiredPermissions = requiredPermissions := by decide
        rw [he]
        exact hfold

/-- C3 witness: registering carol at the fresh store yields 201, and
the new row is staff with exactly the six permissions. -/
theorem create_user_success_staff_six_perms_witness :
    ∃ u, (create_user freshStore carolPayload).2.users =
        u :: freshStore.users ∧ u.isStaff = true ∧
      u.permissions = requiredPermissions :=
  create_user_success_staff_six_perms freshStore carolPayload "Success."
    (by decide)

/-- C4: registering an already-used username returns 400 with detail
"Username is already used." and leaves the store untouched; in
particular when exactly one row with that username existed before,
exactly one exists afterward. -/
theorem create_user_duplicate (s : Store) (p : CreateUser)
    (h : s.users.any (fun u => u.username == p.username) = true) :
    create_user s p =
      (CreateUserResponse.badRequest "Username is already used.", s) ∧
      ((s.users.filter (fun u => u.username == p.username)).length = 1 →
        ((create_user s p).2.users.filter
          (fun u => u.username == p.username)).length = 1) := by
  have h1 : create_user s p =
      (CreateUserResponse.badRequest "Username is already used.", s) := by
    simp [create_user, h]
  refine ⟨h1, fun hc => ?_⟩
  rw [h1]
  exact hc

/-- C4 witness: re-registering the username alice at the base store
returns 400 and the store keeps exactly one alice row. -/
theorem create_user_duplicate_witness :
    create_user baseStore dupPayload =
      (CreateUserResponse.badRequest "Username is already used.",
        baseStore) ∧
      ((create_user baseStore dupPayload).2.users.filter
        (fun u => u.username == dupPayload.username)).length = 1 :=
  ⟨(create_user_duplicate baseStore dupPayload (by decide)).1,
    (create_user_duplicate baseStore dupPayload (by decide)).2 (by decide)⟩

/-- C9: logout is total and idempotent over session state: from any
session, anonymous or authenticated, it returns the success detail and
the anonymous session, and applying it twice equals applying it once. -/
theorem logout_total_idempotent (sess : Session) :
    logout sess = ("Success.", Session.anonymous) ∧
      logout (logout sess).2 = logout sess := by
  cases sess <;> exact ⟨rfl, rfl⟩

/-- C1 counterexample: with alice authenticated at the base store, the
lift listing returns her lifts ordered by date ascending — the result
list [la2, la1] has dates 3 then 5, so it is not ordered by date
descending as the claim states. -/
theorem list_lifts_not_descending :
    list_lifts baseStore aliceSession = LiftListResponse.ok [la2, la1] ∧
      ¬ List.Pairwise (fun a b : Lift => b.date ≤ a.date) [la2, la1] := by
  constructor
  · decide
  · decide

/-- C1 (amended): for every authenticated user, the lift listing
returns exactly the user's lifts (a permutation of the rows filtered to
the requester) ordered by date ascending (oldest date first). -/
theorem list_lifts_own_sorted_ascending (s : Store) (sess : Session)
    (u : User) (h : currentUser s sess = some u) :
    list_lifts s sess = LiftListResponse.ok
        (List.insertionSort liftDateLe
          (s.lifts.filter (fun l => l.user == u.id))) ∧
      List.Sorted liftDateLe
        (List.insertionSort liftDateLe
          (s.lifts.filter (fun l => l.user == u.id))) ∧
      List.Perm
        (List.insertionSort liftDateLe
          (s.lifts.filter (fun l => l.user == u.id)))
        (s.lifts.filter (fun l => l.user == u.id)) := by
  refine ⟨?_, List.sorted_insertionSort liftDateLe _,
    List.perm_insertionSort liftDateLe _⟩
  simp [list_lifts, h]

/-- C1 witness: the amended ordering claim evaluated with alice
authenticated at the base store. -/
theorem list_lifts_own_sorted_ascending_witness :
    list_lifts baseStore aliceSession = LiftListResponse.ok
      (List.insertionSort liftDateLe
        (baseStore.lifts.filter (fun l => l.user == alice.id))) :=
  (list_lifts_own_sorted_ascending baseStore aliceSession alice
    (by decide)).1

/-- C8: every lift returned to an authenticated requester is owned by
the requester; hence for any other user with a different id, none of
the returned lifts is owned by that user. -/
theorem list_lifts_only_requester (s : Store) (sess : Session) (u : User)
    (out : List Lift) (h : currentUser s sess = some u)
    (ho : list_lifts s sess = LiftListResponse.ok out) :
    (∀ l ∈ out, l.user = u.id) ∧
      ∀ b : User, b.id ≠ u.id → ∀ l ∈ out, l.user ≠ b.id := by
  have hout : out = List.insertionSort liftDateLe
      (s.lifts.filter (fun l => l.user == u.id)) := by
    simp [list_lifts, h] at ho
    exact ho.symm
  have hmem : ∀ l ∈ out, l.user = u.id := by
    intro l hl
    rw [hout] at hl
    have hfl := (List.perm_insertionSort liftDateLe _).mem_iff.mp hl
    have hp := List.mem_filter.mp hfl
    simpa using hp.2
  refine ⟨hmem, fun b hb l hl hcontra => ?_⟩
  exact hb (hcontra ▸ hmem l hl)

/-- C8 witness: the first lift returned to alice at the base store is
owned by alice. -/
theorem list_lifts_only_requester_witness :
    la2.user = alice.id :=
  (list_lifts_only_requester baseStore aliceSession alice [la2, la1]
    (by decide) (by decide)).1 la2 (by decide)

/-- C5: for an authenticated requester, creating a lift whose
exercise_id matches no exercise row returns 404 with detail
"Exercise not found." and leaves the store unchanged; when the exercise
exists, a lift owned by the requester referencing it is inserted and
201 returned. -/
theorem create_lift_exercise_check (s : Store) (sess : Session) (u : User)
    (p : CreateLiftSchema) (h : currentUser s sess = some u) :
    (s.exercises.find? (fun e => e.id == p.exercise_id) = none →
      create_lift s sess p =
        (CreateLiftResponse.notFound "Exercise not found.", s)) ∧
      ∀ e, s.exercises.find? (fun e => e.id == p.exercise_id) = some e →
        create_lift s sess p =
          (CreateLiftResponse.created "Lift created successfully.",
            { s with
                lifts :=
                  { id := s.nextLiftId, user := u.id, exercise := e.id,
                    date := p.date, repetitions := p.repetitions,
                    weight := p.weight } :: s.lifts,
                nextLiftId := s.nextLiftId + 1 }) := by
  constructor
  · intro hn
    simp [create_lift, h, hn]
  · intro e he
    simp [create_lift, h, he]

/-- C5 witness: with alice authenticated at the base store, a lift
payload naming the missing exercise id 999 yields 404 and the
unchanged store. -/
theorem create_lift_exercise_check_witness :
    create_lift baseStore aliceSession missingExercisePayload =
      (CreateLiftResponse.notFound "Exercise not found.", baseStore) :=
  (create_lift_exercise_check baseStore aliceSession alice
    missingExercisePayload (by decide)).1 (by decide)

/-- C6: a login whose credentials fail verification returns 400 with
detail "Invalid credentials." and leaves the anonymous session
untouched, so a subsequent current-user request on that session is
rejected with 401. -/
theorem login_invalid_credentials (s : Store) (p : Login)
    (h : authenticate s p.username p.password = none) :
    login s Session.anonymous p =
      (LoginResponse.badRequest "Invalid credentials.",
        Session.anonymous) ∧
      retrieve_current_user s (login s Session.anonymous p).2 =
        CurrentUserResponse.unauthorized := by
  have h1 : login s Session.anonymous p =
      (LoginResponse.badRequest "Invalid credentials.",
        Session.anonymous) := by
    simp [login, h]
  refine ⟨h1, ?_⟩
  rw [h1]
  rfl

/-- C6 witness: logging in as alice with a wrong password at the base
store fails with 400 and the session stays anonymous. -/
theorem login_invalid_credentials_witness :
    login baseStore Session.anonymous badLogin =
      (LoginResponse.badRequest "Invalid credentials.",
        Session.anonymous) :=
  (login_invalid_credentials baseStore badLogin (by decide)).1

/-- C7: a change-password with the correct current password and a new
password passing the strength validator stores the new hash and
re-derives the session auth-hash, so the pre-existing session still
authenticates (as the updated user) after the change. -/
theorem change_password_keeps_session (v : String → List String)
    (s : Store) (sess : Session) (u : User) (p : ChangePassword)
    (h : currentUser s sess = some u)
    (hc : checkPassword u p.current_password = true)
    (hv : v p.new_password = []) :
    change_password v s sess p =
      (ChangePasswordResponse.ok "Password changed successfully.",
        saveUser s { u with passwordHash := hashPassword p.new_password },
        Session.authenticated u.id
          (sessionAuthHash (hashPassword p.new_password))) ∧
      currentUser (change_password v s sess p).2.1
          (change_password v s sess p).2.2 =
        some { u with passwordHash := hashPassword p.new_password } := by
  have h1 : change_password v s sess p =
      (ChangePasswordResponse.ok "Password changed successfully.",
        saveUser s { u with passwordHash := hashPassword p.new_password },
        Session.authenticated u.id
          (sessionAuthHash (hashPassword p.new_password))) := by
    simp [change_password, h, hc, hv]
  refine ⟨h1, ?_⟩
  rw [h1]
  have hfind := (currentUser_elim s sess u h).2
  have hsave := findUserById_saveUser s u
    { u with passwordHash := hashPassword p.new_password } rfl hfind
  simp [currentUser, hsave]

/-- C7 witness: alice changes her password at the base store under a
validator that accepts everything; the handler succeeds with the
updated store and re-derived session. -/
theorem change_password_keeps_session_witness :
    change_password acceptAll baseStore aliceSession cpOk =
      (ChangePasswordResponse.ok "Password changed successfully.",
        saveUser baseStore
          { alice with passwordHash := hashPassword cpOk.new_password },
        Session.authenticated alice.id
          (sessionAuthHash (hashPassword cpOk.new_password))) :=
  (change_password_keeps_session acceptAll baseStore aliceSession alice
    cpOk (by decide) (by decide) rfl).1

/-- C10: a change-password with the correct current password whose new
password fails the strength validator returns 400 with the space-joined
validator messages and leaves the store (in particular the stored
password hash) and the session exactly as they were. -/
theorem change_password_weak_unchanged (v : String → List String)
    (s : Store) (sess : Session) (u : User) (p : ChangePassword)
    (h : currentUser s sess = some u)
    (hc : checkPassword u p.current_password = true)
    (hv : v p.new_password ≠ []) :
    change_password v s sess p =
      (ChangePasswordResponse.badRequest
        (String.intercalate " " (v p.new_password)), s, sess) := by
  rcases he : v p.new_password with _ | ⟨m, ms⟩
  · exact absurd he hv
  · simp [change_password, h, hc, he]

/-- C10 witness: alice submits a weak new password under a validator
that rejects everything; the response is 400 and store and session are
unchanged. -/
theorem change_password_weak_unchanged_witness :
    change_password rejectAll baseStore aliceSession cpWeak =
      (ChangePasswordResponse.badRequest
        (String.intercalate " " (rejectAll cpWeak.new_password)),
        baseStore, aliceSession) :=
  change_password_weak_unchanged rejectAll baseStore aliceSession alice
    cpWeak (by decide) (by decide) (by decide)

end OpenHypertrophy
